import Mathlib

/-!
Shallow embedding of the EGX Auto-Trader dashboard (src/types.ts,
src/App.tsx, src/components/TradeVisualizer.tsx, src/components/Stat.tsx)
and proofs about its computations.  Numeric fields are modelled as
rationals, Firestore timestamps by their integer seconds component.
-/

namespace EGX

/-- Firestore `Timestamp` as consumed by the dashboard: only the `seconds`
component is ever read (`batch.createdAt.seconds * 1000`). -/
structure Timestamp where
  seconds : Nat
deriving DecidableEq, Repr

/-- Structure `PriceSymbol` from src/types.ts. -/
structure PriceSymbol where
  ticker : String
  name : String
  close : ℚ
  changePct : ℚ
  volume : ℚ
deriving DecidableEq, Repr

/-- Structure `PriceBatch` from src/types.ts. -/
structure PriceBatch where
  batchId : String
  createdAt : Timestamp
  symbols : List PriceSymbol
deriving DecidableEq, Repr

/-- Enum `TradeActionType` from src/types.ts. -/
inductive TradeActionType where
  | BUY
  | SELL
deriving DecidableEq, Repr

/-- Enum `TradeStatus` from src/types.ts. -/
inductive TradeStatus where
  | PENDING
  | FILLED
  | CANCELLED
deriving DecidableEq, Repr

/-- Structure `TradeAction` from src/types.ts. -/
structure TradeAction where
  id : String
  batchId : String
  date : Timestamp
  ticker : String
  action : TradeActionType
  shares : ℚ
  price : ℚ
  stopLoss : ℚ
  takeProfit : ℚ
  rationale : String
  status : TradeStatus
deriving DecidableEq, Repr

/-- Structure `PortfolioState` from src/types.ts. -/
structure PortfolioState where
  cash : ℚ
  equity : ℚ
  updatedAt : Timestamp
  cashBufferPct : ℚ
deriving DecidableEq, Repr

/-- Structure `PortfolioPosition` from src/types.ts. -/
structure PortfolioPosition where
  id : String
  ticker : String
  shares : ℚ
  avgPrice : ℚ
  marketPrice : ℚ
  unrealizedPnL : ℚ
deriving DecidableEq, Repr

/-- JavaScript `x || d` on numbers, for the rational model: `0` is the
only falsy rational, so the expression yields `d` exactly when `x = 0`. -/
def jsOr (x d : ℚ) : ℚ := if x = 0 then d else x

/-- Result of the `useMemo` at App.tsx lines 92-100. -/
structure PortfolioKpis where
  portfolioValue : ℚ
  dailyPnL : ℚ
  dailyPnLPct : ℚ
deriving DecidableEq, Repr

/-- The portfolio KPI computation of App.tsx lines 92-100:
if `!portfolioState || portfolioPositions.length === 0` the value is
`portfolioState?.cash || 0` with zero P/L; otherwise value is
`cash + equity` where `equity = Σ shares * marketPrice`, P/L is
`Σ unrealizedPnL`, and the percentage divides by
`portfolioValue - totalPnl || 1`. -/
def portfolioKpis (portfolioState : Option PortfolioState)
    (portfolioPositions : List PortfolioPosition) : PortfolioKpis :=
  match portfolioState with
  | none => { portfolioValue := 0, dailyPnL := 0, dailyPnLPct := 0 }
  | some st =>
    if portfolioPositions.isEmpty then
      { portfolioValue := jsOr st.cash 0, dailyPnL := 0, dailyPnLPct := 0 }
    else
      let equity := portfolioPositions.foldl
        (fun acc pos => acc + pos.shares * pos.marketPrice) 0
      let portfolioValue := st.cash + equity
      let totalPnl := portfolioPositions.foldl
        (fun acc pos => acc + pos.unrealizedPnL) 0
      { portfolioValue := portfolioValue
        dailyPnL := totalPnl
        dailyPnLPct := totalPnl / jsOr (portfolioValue - totalPnl) 1 * 100 }

/-! ### JavaScript `Map` model (TradeVisualizer.tsx line 94)

`new Map(actions.map(a => [a.batchId, a]))` inserts the entries in list
order; a later entry with the same key replaces the earlier one.  Only
`get` is used on the resulting map, so it is modelled as a lookup
function built by iterated insertion. -/

/-- An empty JavaScript `Map` keyed by strings. -/
def jsMapEmpty : String → Option TradeAction := fun _ => none

/-- Operation `map.set(k, v)`: subsequent `get k` yields `v`, other keys unchanged. -/
def jsMapSet (m : String → Option TradeAction) (k : String) (v : TradeAction) :
    String → Option TradeAction :=
  fun q => if q = k then some v else m q

/-- Constructor call `new Map(entries)`: insert each entry in order. -/
def jsMapOfEntries (entries : List (String × TradeAction)) :
    String → Option TradeAction :=
  entries.foldl (fun m kv => jsMapSet m kv.1 kv.2) jsMapEmpty

/-- Model of `actionsByBatchId`, TradeVisualizer.tsx line 94:
`new Map(actions.map(a => [a.batchId, a]))`. -/
def actionsByBatchId (actions : List TradeAction) : String → Option TradeAction :=
  jsMapOfEntries (actions.map (fun a => (a.batchId, a)))

/-! ### Chart merge (TradeVisualizer.tsx lines 93-108) -/

/-- Model of the `date` label
`new Date(batch.createdAt.seconds * 1000).toLocaleTimeString('en-US',
{ hour: '2-digit', minute: '2-digit' })`: the hour-of-day and minute
rendered from the timestamp (UTC rendering of the locale string). -/
def timeLabel (t : Timestamp) : Nat × Nat :=
  ((t.seconds / 3600) % 24, (t.seconds / 60) % 60)

/-- Structure `ChartDataPoint` from TradeVisualizer.tsx lines 12-16. -/
structure ChartDataPoint where
  date : Nat × Nat
  close : ℚ
  trade : Option TradeAction
deriving DecidableEq, Repr

/-- The body of the `prices.map(batch => ...)` arrow at TradeVisualizer.tsx
lines 97-106: find the selected ticker's symbol in the batch; if absent
return `null` (here `none`), else build the point with the batch's time
label, the symbol's close, and `actionsByBatchId.get(batch.batchId)`. -/
def chartPointOfBatch (selectedTicker : String)
    (abid : String → Option TradeAction) (batch : PriceBatch) :
    Option ChartDataPoint :=
  match batch.symbols.find? (fun s => s.ticker == selectedTicker) with
  | none => none
  | some symbolData =>
    some { date := timeLabel batch.createdAt
           close := symbolData.close
           trade := abid batch.batchId }

/-- Model of `mergedData`, TradeVisualizer.tsx lines 96-108:
`prices.map(...).filter(d => d !== null).reverse()`. -/
def mergedData (selectedTicker : String) (prices : List PriceBatch)
    (actions : List TradeAction) : List ChartDataPoint :=
  (((prices.map
      (chartPointOfBatch selectedTicker (actionsByBatchId actions))).filterMap
      id)).reverse

/-- Whether a batch carries a symbol for the given ticker (the condition
under which the merge keeps the batch). -/
def batchHasTicker (selectedTicker : String) (batch : PriceBatch) : Bool :=
  (batch.symbols.find? (fun s => s.ticker == selectedTicker)).isSome

/-- The chart point built from a batch that carries the selected ticker,
as a total function (a batch without the ticker gets a junk close of 0;
the merge never keeps such a batch). -/
def chartPointOfBatchTotal (selectedTicker : String)
    (abid : String → Option TradeAction) (batch : PriceBatch) : ChartDataPoint :=
  { date := timeLabel batch.createdAt
    close :=
      ((batch.symbols.find? (fun s => s.ticker == selectedTicker)).map
        (fun s => s.close)).getD 0
    trade := abid batch.batchId }

/-! ### App snapshot handlers (App.tsx lines 43-90) -/

/-- The React state of the `App` component (App.tsx lines 37-41) together
with the effect-local `loadedCount` counter (line 46). -/
structure AppState where
  portfolioState : Option PortfolioState
  portfolioPositions : List PortfolioPosition
  latestBatch : Option PriceBatch
  tradeActions : List TradeAction
  loading : Bool
  loadedCount : Nat
deriving DecidableEq, Repr

/-- The initial `App` state (App.tsx lines 37-41, 46). -/
def initialAppState : AppState :=
  { portfolioState := none
    portfolioPositions := []
    latestBatch := none
    tradeActions := []
    loading := true
    loadedCount := 0 }

/-- Model of `checkAllLoaded`, App.tsx lines 48-53: bump `loadedCount`; once it
reaches the number of watched collections (4), clear `loading`. -/
def checkAllLoaded (st : AppState) : AppState :=
  let lc := st.loadedCount + 1
  { st with loadedCount := lc, loading := if 4 ≤ lc then false else st.loading }

/-- The portfolio-state listener callback (App.tsx lines 57-62):
`if (docSnap.exists()) setPortfolioState(docSnap.data())`, then
`checkAllLoaded()`.  A non-existing document leaves the state as is. -/
def onPortfolioStateSnapshot (docSnap : Option PortfolioState)
    (st : AppState) : AppState :=
  checkAllLoaded <|
    match docSnap with
    | some d => { st with portfolioState := some d }
    | none => st

/-- The positions listener callback (App.tsx lines 66-70): replace the
positions list with the snapshot's documents unconditionally. -/
def onPositionsSnapshot (docs : List PortfolioPosition) (st : AppState) :
    AppState :=
  checkAllLoaded { st with portfolioPositions := docs }

/-- The latest-price-batch listener callback (App.tsx lines 74-79):
`if (!snapshot.empty) setLatestBatch(snapshot.docs[0].data())`, then
`checkAllLoaded()`.  An empty result set leaves the previous batch. -/
def onPricesSnapshot (docs : List PriceBatch) (st : AppState) : AppState :=
  checkAllLoaded <|
    match docs with
    | [] => st
    | b :: _ => { st with latestBatch := some b }

/-- The trade-actions listener callback (App.tsx lines 83-87): replace the
actions list with the snapshot's documents unconditionally. -/
def onActionsSnapshot (docs : List TradeAction) (st : AppState) : AppState :=
  checkAllLoaded { st with tradeActions := docs }

/-! ### Subscription lifecycle (App.tsx lines 43-90,
TradeVisualizer.tsx lines 68-120)

`onSnapshot` returns an unsubscribe function and registers a listener; the
value returned by the snapshot *callback* is discarded by Firestore.  The
model tracks the set of registered listeners by numeric id. -/

/-- Registered live-query listeners: `next` numbers the listeners in
creation order, `active` lists the ids still registered. -/
structure SubState where
  next : Nat
  active : List Nat
deriving DecidableEq, Repr

/-- Call `onSnapshot(...)`: register a fresh listener, returning its id (the
handle the unsubscribe closure captures). -/
def subscribe (s : SubState) : Nat × SubState :=
  (s.next, { next := s.next + 1, active := s.active ++ [s.next] })

/-- Calling the unsubscribe function for listener `i`. -/
def unsubscribe (s : SubState) (i : Nat) : SubState :=
  { s with active := s.active.filter (fun j => j ≠ i) }

/-- One run of the `App` subscription effect (App.tsx lines 43-90): four
`onSnapshot` registrations pushed onto `unsubscribers`, and the cleanup
`() => unsubscribers.forEach(unsub => unsub())` at teardown. -/
def appEffectRun (s0 : SubState) : SubState :=
  let (i1, s1) := subscribe s0
  let (i2, s2) := subscribe s1
  let (i3, s3) := subscribe s2
  let (i4, s4) := subscribe s3
  [i1, i2, i3, i4].foldl unsubscribe s4

/-- The prices snapshot callback of TradeVisualizer.tsx lines 87-116: each
delivery registers a fresh nested actions listener
(`onSnapshot(actionsQuery, ...)`); the callback's
`return () => unsubscribeActions()` is handed to Firestore, which discards
callback return values, so the nested listener's id is not recorded
anywhere the teardown can reach. -/
def tvPricesCallback (s : SubState) : SubState :=
  (subscribe s).2

/-- One run of the TradeVisualizer subscription effect
(TradeVisualizer.tsx lines 68-120) in which the prices listener fires
`n` times before teardown: register the prices listener, apply the
callback per delivery, and at teardown run the effect cleanup
`() => unsubscribePrices()` — the only cleanup React receives. -/
def tvEffectRun (n : Nat) (s0 : SubState) : SubState :=
  let (pricesId, s1) := subscribe s0
  let s2 := (List.range n).foldl (fun s _ => tvPricesCallback s) s1
  unsubscribe s2 pricesId

/-! ### Store interactions (C7) -/

/-- The operations the dashboard can issue against the document store:
`listen` registers a read-only live query; `write` would modify a target
document (no dashboard code path issues one). -/
inductive StoreOp where
  | listen (target : String)
  | write (target : String) (payload : String)
deriving DecidableEq, Repr

/-- Whether an operation modifies the store. -/
def StoreOp.isWrite : StoreOp → Bool
  | .listen _ => false
  | .write _ _ => true

/-- Effect of an operation on the store contents (modelled as a list of
(path, payload) documents): listening leaves the store unchanged, a write
would prepend its payload. -/
def applyStoreOp (store : List (String × String)) : StoreOp →
    List (String × String)
  | .listen _ => store
  | .write t p => (t, p) :: store

/-- The store operations one run of the `App` effect issues
(App.tsx lines 56-87): four `onSnapshot` registrations. -/
def appStoreOps : List StoreOp :=
  [ .listen "portfolio/state"
  , .listen "portfolio/state/positions"
  , .listen "prices"
  , .listen "actions" ]

/-- The store operations one run of the TradeVisualizer effect issues
(TradeVisualizer.tsx lines 74-116), including the nested registration
performed on each prices delivery (`n` deliveries). -/
def tvStoreOps (n : Nat) : List StoreOp :=
  .listen "prices" :: (List.range n).map (fun _ => .listen "actions")

/-! ### Empty-state views (C8) -/

/-- What the TradeVisualizer renders at top level
(TradeVisualizer.tsx lines 126-133): the empty-state message when no
tickers are available, the chart block otherwise. -/
inductive TradeVisualizerView where
  | noStockData
  | chartBlock
deriving DecidableEq, Repr

/-- The `availableTickers.length === 0` branch of TradeVisualizer.tsx
lines 126-133. -/
def tradeVisualizerView (availableTickers : List String) :
    TradeVisualizerView :=
  if availableTickers.isEmpty then .noStockData else .chartBlock

/-- The two overlays over the chart area (TradeVisualizer.tsx lines
152-161): `loading && <loading overlay>` and
`!loading && chartData.length === 0 && <no-history message>`. -/
structure ChartOverlays where
  showLoading : Bool
  showNoHistory : Bool
deriving DecidableEq, Repr

/-- Overlay conditions of TradeVisualizer.tsx lines 152-161. -/
def chartOverlays (loading : Bool) (chartData : List ChartDataPoint) :
    ChartOverlays :=
  { showLoading := loading
    showNoHistory := !loading && chartData.isEmpty }

/-- The actions table area of App.tsx lines 173-216: skeleton rows while
loading with no data, the table rows otherwise, and the empty notice
when loading finished with no actions. -/
structure ActionsTableView where
  showSkeleton : Bool
  rows : List TradeAction
  showEmptyNotice : Bool
deriving DecidableEq, Repr

/-- Render conditions of App.tsx lines 173-216. -/
def actionsTableView (loading : Bool) (tradeActions : List TradeAction) :
    ActionsTableView :=
  { showSkeleton := loading && tradeActions.isEmpty
    rows := if loading && tradeActions.isEmpty then [] else tradeActions
    showEmptyNotice := !loading && tradeActions.isEmpty }

/-- Model of `availableTickers`, App.tsx lines 106-113: tickers of the latest
batch, indices starting with "EGX" removed, sorted alphabetically. -/
def availableTickers (latestBatch : Option PriceBatch) : List String :=
  match latestBatch with
  | none => []
  | some b =>
    (((b.symbols.map (fun s => s.ticker)).filter
      (fun t => ! t.startsWith "EGX")).mergeSort (fun a b => a ≤ b))

/-! ### Concrete fixtures used by counterexamples and witnesses -/

/-- The EGX30 index quote: a symbol the chart's ticker filter excludes. -/
def exIndexSymbol : PriceSymbol :=
  { ticker := "EGX30", name := "EGX 30 Index"
    close := 30000, changePct := 1/2, volume := 0 }

/-- A quote for the stock ticker "ABUK". -/
def exStockSymbol : PriceSymbol :=
  { ticker := "ABUK", name := "Abu Qir Fertilizers"
    close := 50, changePct := 1, volume := 1000 }

/-- A price batch that does not contain the ticker "ABUK". -/
def exBatchNoTicker : PriceBatch :=
  { batchId := "batch-1", createdAt := ⟨3600⟩, symbols := [exIndexSymbol] }

/-- A price batch that contains the ticker "ABUK". -/
def exBatchWithTicker : PriceBatch :=
  { batchId := "batch-2", createdAt := ⟨7200⟩
    symbols := [exIndexSymbol, exStockSymbol] }

/-- A filled BUY action on "ABUK" generated from batch "batch-2". -/
def exActionA : TradeAction :=
  { id := "a1", batchId := "batch-2", date := ⟨7300⟩, ticker := "ABUK"
    action := .BUY, shares := 10, price := 49, stopLoss := 45
    takeProfit := 55, rationale := "momentum", status := .FILLED }

/-- A later SELL action on "ABUK" sharing batch "batch-2". -/
def exActionB : TradeAction :=
  { id := "a2", batchId := "batch-2", date := ⟨7400⟩, ticker := "ABUK"
    action := .SELL, shares := 10, price := 51, stopLoss := 45
    takeProfit := 55, rationale := "target hit", status := .FILLED }

/-- A portfolio state with non-zero cash. -/
def exState : PortfolioState :=
  { cash := 100, equity := 20, updatedAt := ⟨7500⟩, cashBufferPct := 10 }

/-- A position consistent with its own unrealized P/L
(`unrealizedPnL = shares * (marketPrice - avgPrice)`). -/
def exPosition : PortfolioPosition :=
  { id := "ABUK", ticker := "ABUK", shares := 1, avgPrice := 10
    marketPrice := 20, unrealizedPnL := 10 }

/-- A dashboard state in which every record is present. -/
def exAppState : AppState :=
  { portfolioState := some exState
    portfolioPositions := [exPosition]
    latestBatch := some exBatchWithTicker
    tradeActions := [exActionA]
    loading := false
    loadedCount := 4 }

/-! ## Helper lemmas -/

/-- A `reduce` accumulating `acc + f pos` starting from `a` equals
`a` plus the sum of the mapped list. -/
theorem foldl_add_eq_sum {α : Type} (f : α → ℚ) (l : List α) (a : ℚ) :
    l.foldl (fun acc x => acc + f x) a = a + (l.map f).sum := by
  induction l generalizing a with
  | nil => simp
  | cons x xs ih => simp [List.foldl_cons, ih, add_assoc]

/-- The guarded divisor `x || 1` is never zero. -/
theorem jsOr_one_ne_zero (x : ℚ) : jsOr x 1 ≠ 0 := by
  unfold jsOr
  split
  · exact one_ne_zero
  · assumption

/-- Reading via `get` after folding `set` over an entry list: the value of the last
entry with the key, else the value in the initial map. -/
theorem foldl_jsMapSet_get (l : List (String × TradeAction))
    (m : String → Option TradeAction) (k : String) :
    (l.foldl (fun acc kv => jsMapSet acc kv.1 kv.2) m) k
      = match (l.filter (fun kv => kv.1 == k)).getLast? with
        | some kv => some kv.2
        | none => m k := by
  induction l generalizing m with
  | nil => rfl
  | cons x xs ih =>
    rw [List.foldl_cons, List.filter_cons, ih]
    by_cases hx : x.1 = k
    · simp only [hx, beq_self_eq_true, if_pos, List.getLast?_cons,
        List.getLastD_eq_getLast?]
      cases hlast : (xs.filter (fun kv => kv.1 == k)).getLast? with
      | none => simp [hlast, jsMapSet, hx]
      | some kv => simp [hlast]
    · have hx' : (x.1 == k) = false := beq_eq_false_iff_ne.mpr hx
      simp only [hx', Bool.false_eq_true, if_neg, not_false_iff]
      cases hlast : (xs.filter (fun kv => kv.1 == k)).getLast? with
      | none =>
        simp only [hlast, jsMapSet]
        rw [if_neg (Ne.symm hx)]
      | some kv => simp [hlast]

/-- Lookup `actionsByBatchId.get(bid)` is the last action in the list whose
`batchId` equals `bid` (later `Map` entries overwrite earlier ones). -/
theorem actionsByBatchId_get (actions : List TradeAction) (bid : String) :
    actionsByBatchId actions bid
      = (actions.filter (fun a => a.batchId == bid)).getLast? := by
  unfold actionsByBatchId jsMapOfEntries
  rw [foldl_jsMapSet_get, List.filter_map]
  have hcomp : ((fun kv : String × TradeAction => kv.1 == bid) ∘
      (fun a : TradeAction => (a.batchId, a))) = fun a => a.batchId == bid := rfl
  rw [hcomp, List.getLast?_map]
  cases (actions.filter (fun a => a.batchId == bid)).getLast? with
  | none => rfl
  | some a => rfl

/-- The merge keeps a batch exactly when it carries the selected ticker. -/
theorem actionsByBatchId_isSome (actions : List TradeAction) (bid : String) :
    (actionsByBatchId actions bid).isSome ↔ ∃ a ∈ actions, a.batchId = bid := by
  rw [actionsByBatchId_get, List.getLast?_isSome]
  constructor
  · intro h
    obtain ⟨a, ha⟩ := List.exists_mem_of_ne_nil _ h
    have := List.mem_filter.mp ha
    exact ⟨a, this.1, by simpa using this.2⟩
  · rintro ⟨a, ha, hb⟩
    intro hnil
    have : a ∈ (actions.filter (fun a => a.batchId == bid)) :=
      List.mem_filter.mpr ⟨ha, by simpa using hb⟩
    rw [hnil] at this
    exact absurd this (List.not_mem_nil a)

/-- Unfolding: `mergedData` is the reversed `filterMap` of the point builder. -/
theorem mergedData_eq_reverse_filterMap (t : String) (prices : List PriceBatch)
    (actions : List TradeAction) :
    mergedData t prices actions
      = (prices.filterMap
          (chartPointOfBatch t (actionsByBatchId actions))).reverse := by
  unfold mergedData
  rw [List.filterMap_map]
  rfl

/-- The point builder keeps exactly the batches carrying the ticker, and
on those agrees with the total point builder. -/
theorem filterMap_chartPoint (t : String)
    (abid : String → Option TradeAction) (prices : List PriceBatch) :
    prices.filterMap (chartPointOfBatch t abid)
      = (prices.filter (batchHasTicker t)).map (chartPointOfBatchTotal t abid) := by
  induction prices with
  | nil => rfl
  | cons b bs ih =>
    rw [List.filterMap_cons, List.filter_cons]
    cases hfind : b.symbols.find? (fun s => s.ticker == t) with
    | none =>
      simp only [chartPointOfBatch, hfind, batchHasTicker, Option.isSome_none,
        Bool.false_eq_true, if_neg, not_false_iff]
      exact ih
    | some sym =>
      simp only [chartPointOfBatch, hfind, batchHasTicker, Option.isSome_some,
        if_pos, List.map_cons, chartPointOfBatchTotal]
      rw [ih]
      exact rfl

/-! ## Claims -/

/-- C1: for every portfolio state record and position list, the displayed
portfolio value equals cash plus the sum over positions of shares times
market price; for an empty position list it equals cash alone. -/
theorem c1_portfolio_value (st : PortfolioState)
    (positions : List PortfolioPosition) :
    (portfolioKpis (some st) positions).portfolioValue
      = st.cash + (positions.map (fun pos => pos.shares * pos.marketPrice)).sum := by
  cases positions with
  | nil =>
    simp [portfolioKpis, jsOr]
    rcases eq_or_ne st.cash 0 with h | h <;> simp [h]
  | cons p ps => simp [portfolioKpis, foldl_add_eq_sum]

/-- C3 counterexample: with non-zero cash, the displayed P/L percentage
differs from 100 times total P/L over invested value
(`Σ shares * avgPrice`): the code divides by portfolio value minus total
P/L, which also contains the cash. -/
theorem c3_counterexample :
    (portfolioKpis (some exState) [exPosition]).dailyPnLPct
      ≠ 100 * (([exPosition].map (fun p => p.unrealizedPnL)).sum
          / ([exPosition].map (fun p => p.shares * p.avgPrice)).sum) := by
  norm_num [portfolioKpis, exState, exPosition, jsOr]

/-- C3 amended: for a present state and non-empty positions, the P/L
percentage is 100 times total unrealized P/L divided by portfolio value
minus total P/L (cash plus market value minus P/L), the divisor guarded
to 1 when that difference is zero. -/
theorem c3_pnl_pct (st : PortfolioState) (positions : List PortfolioPosition)
    (h : positions ≠ []) :
    (portfolioKpis (some st) positions).dailyPnLPct
      = (positions.map (fun p => p.unrealizedPnL)).sum
        / jsOr (st.cash
            + (positions.map (fun p => p.shares * p.marketPrice)).sum
            - (positions.map (fun p => p.unrealizedPnL)).sum) 1 * 100 := by
  cases positions with
  | nil => exact absurd rfl h
  | cons p ps => simp [portfolioKpis, foldl_add_eq_sum]

/-- C3 amended, witness at the fixture state and position. -/
theorem c3_pnl_pct_witness :
    (portfolioKpis (some exState) [exPosition]).dailyPnLPct
      = ([exPosition].map (fun p => p.unrealizedPnL)).sum
        / jsOr (exState.cash
            + ([exPosition].map (fun p => p.shares * p.marketPrice)).sum
            - ([exPosition].map (fun p => p.unrealizedPnL)).sum) 1 * 100 :=
  c3_pnl_pct exState [exPosition] (by decide)

/-- C9: the P/L percentage divisor `portfolioValue - totalPnl || 1` is
never zero, is 1 exactly when the difference vanishes, and is the divisor
the percentage actually uses. -/
theorem c9_divisor_guard (st : PortfolioState)
    (positions : List PortfolioPosition) (h : positions ≠ []) :
    jsOr ((portfolioKpis (some st) positions).portfolioValue
        - (portfolioKpis (some st) positions).dailyPnL) 1 ≠ 0
    ∧ ((portfolioKpis (some st) positions).portfolioValue
          - (portfolioKpis (some st) positions).dailyPnL = 0 →
        jsOr ((portfolioKpis (some st) positions).portfolioValue
          - (portfolioKpis (some st) positions).dailyPnL) 1 = 1)
    ∧ (portfolioKpis (some st) positions).dailyPnLPct
      = (portfolioKpis (some st) positions).dailyPnL
        / jsOr ((portfolioKpis (some st) positions).portfolioValue
            - (portfolioKpis (some st) positions).dailyPnL) 1 * 100 := by
  refine ⟨jsOr_one_ne_zero _, fun hz => by simp [jsOr, hz], ?_⟩
  cases positions with
  | nil => exact absurd rfl h
  | cons p ps => simp [portfolioKpis]

/-- C9 witness: the divisor is non-zero at the fixture inputs. -/
theorem c9_divisor_guard_witness :
    jsOr ((portfolioKpis (some exState) [exPosition]).portfolioValue
        - (portfolioKpis (some exState) [exPosition]).dailyPnL) 1 ≠ 0 :=
  (c9_divisor_guard exState [exPosition] (by decide)).1

/-- C2 counterexample: a batch that does not contain the selected ticker
produces no chart point, so the merge does not yield one point per batch. -/
theorem c2_counterexample :
    ([exBatchNoTicker] : List PriceBatch).length ≤ 100
    ∧ (mergedData "ABUK" [exBatchNoTicker] []).length
        ≠ ([exBatchNoTicker] : List PriceBatch).length := by
  constructor
  · decide
  · decide

/-- C2 amended: the merge produces exactly one chart point per batch that
contains a symbol for the selected ticker; each such point carries the
batch's time label, that symbol's closing price, and a trade marker
exactly when an action with the batch's batchId exists. -/
theorem c2_one_point_per_matching_batch (t : String)
    (prices : List PriceBatch) (actions : List TradeAction)
    (_hlen : prices.length ≤ 100) :
    (mergedData t prices actions).length
      = (prices.filter (batchHasTicker t)).length
    ∧ (∀ b ∈ prices, ∀ sym,
        b.symbols.find? (fun s => s.ticker == t) = some sym →
        ({ date := timeLabel b.createdAt, close := sym.close
           trade := actionsByBatchId actions b.batchId } : ChartDataPoint)
          ∈ mergedData t prices actions)
    ∧ (∀ pt ∈ mergedData t prices actions, ∃ b, b ∈ prices ∧ ∃ sym,
        b.symbols.find? (fun s => s.ticker == t) = some sym ∧
        pt = { date := timeLabel b.createdAt, close := sym.close
               trade := actionsByBatchId actions b.batchId })
    ∧ (∀ bid, (actionsByBatchId actions bid).isSome
        ↔ ∃ a ∈ actions, a.batchId = bid) := by
  refine ⟨?_, ?_, ?_, actionsByBatchId_isSome actions⟩
  · rw [mergedData_eq_reverse_filterMap, List.length_reverse,
      filterMap_chartPoint, List.length_map]
  · intro b hb sym hsym
    rw [mergedData_eq_reverse_filterMap, List.mem_reverse, List.mem_filterMap]
    refine ⟨b, hb, ?_⟩
    unfold chartPointOfBatch
    rw [hsym]
  · intro pt hpt
    rw [mergedData_eq_reverse_filterMap, List.mem_reverse,
      List.mem_filterMap] at hpt
    obtain ⟨b, hb, hf⟩ := hpt
    unfold chartPointOfBatch at hf
    cases hfind : b.symbols.find? (fun s => s.ticker == t) with
    | none => rw [hfind] at hf; exact absurd hf (by simp)
    | some sym =>
      rw [hfind] at hf
      exact ⟨b, hb, sym, hfind, (Option.some.inj hf).symm⟩

/-- C2 amended, witness: point count at a concrete mixed batch list. -/
theorem c2_one_point_per_matching_batch_witness :
    (mergedData "ABUK" [exBatchWithTicker, exBatchNoTicker] [exActionA]).length
      = (([exBatchWithTicker, exBatchNoTicker] : List PriceBatch).filter
          (batchHasTicker "ABUK")).length :=
  (c2_one_point_per_matching_batch "ABUK" [exBatchWithTicker, exBatchNoTicker]
    [exActionA] (by decide)).1

/-- C4: for a price batch list delivered newest-to-oldest, the merge
output is the order-preserving image of the kept batches in reversed
(hence oldest-to-newest) order, and that reversed batch list is sorted
ascending by creation time. -/
theorem c4_oldest_to_newest (t : String) (actions : List TradeAction)
    (prices : List PriceBatch)
    (hdesc : prices.Pairwise
      (fun a b => b.createdAt.seconds ≤ a.createdAt.seconds)) :
    mergedData t prices actions
      = ((prices.filter (batchHasTicker t)).reverse).map
          (chartPointOfBatchTotal t (actionsByBatchId actions))
    ∧ ((prices.filter (batchHasTicker t)).reverse).Pairwise
        (fun a b => a.createdAt.seconds ≤ b.createdAt.seconds) := by
  constructor
  · rw [mergedData_eq_reverse_filterMap, filterMap_chartPoint,
      List.map_reverse]
  · rw [List.pairwise_reverse]
    exact hdesc.filter _

/-- C4 witness: the merge equation at a concrete descending batch list. -/
theorem c4_oldest_to_newest_witness :
    mergedData "ABUK" [exBatchWithTicker, exBatchNoTicker] [exActionA]
      = ((([exBatchWithTicker, exBatchNoTicker] : List PriceBatch).filter
          (batchHasTicker "ABUK")).reverse).map
          (chartPointOfBatchTotal "ABUK" (actionsByBatchId [exActionA])) :=
  (c4_oldest_to_newest "ABUK" [exActionA] [exBatchWithTicker, exBatchNoTicker]
    (by decide)).1

/-- C10: when a batch carries the selected ticker, its chart point holds
as the trade marker the last action in the given (date-ascending) list
whose batchId equals the batch's; earlier actions with the same batchId
produce no marker. -/
theorem c10_last_action_wins (t : String) (actions : List TradeAction)
    (batch : PriceBatch) (sym : PriceSymbol)
    (hfind : batch.symbols.find? (fun s => s.ticker == t) = some sym) :
    chartPointOfBatch t (actionsByBatchId actions) batch
      = some { date := timeLabel batch.createdAt, close := sym.close
               trade := (actions.filter
                 (fun a => a.batchId == batch.batchId)).getLast? } := by
  unfold chartPointOfBatch
  rw [hfind, actionsByBatchId_get]

/-- C10 witness: two actions share batch "batch-2"; the later one is the
marker. -/
theorem c10_last_action_wins_witness :
    chartPointOfBatch "ABUK" (actionsByBatchId [exActionA, exActionB])
        exBatchWithTicker
      = some { date := timeLabel exBatchWithTicker.createdAt
               close := exStockSymbol.close
               trade := ([exActionA, exActionB].filter
                 (fun a => a.batchId == exBatchWithTicker.batchId)).getLast? } :=
  c10_last_action_wins "ABUK" [exActionA, exActionB] exBatchWithTicker
    exStockSymbol (by decide)

/-- C5 counterexample: a snapshot reporting the portfolio state document
missing (and one reporting an empty prices result) leaves the previously
stored record in the dashboard state instead of removing it. -/
theorem c5_counterexample :
    (onPortfolioStateSnapshot none exAppState).portfolioState = some exState
    ∧ some exState ≠ (none : Option PortfolioState)
    ∧ (onPricesSnapshot [] exAppState).latestBatch = some exBatchWithTicker
    ∧ some exBatchWithTicker ≠ (none : Option PriceBatch) := by
  refine ⟨rfl, by decide, rfl, by decide⟩

/-- C5 amended: a snapshot in which the portfolio state document is
missing, or the prices result is empty, leaves the previously stored
record unchanged (stale); only the positions and actions lists are
replaced by their snapshots and hence emptied by empty snapshots. -/
theorem c5_stale_on_absence (st : AppState) :
    (onPortfolioStateSnapshot none st).portfolioState = st.portfolioState
    ∧ (onPricesSnapshot [] st).latestBatch = st.latestBatch
    ∧ (onPositionsSnapshot [] st).portfolioPositions = []
    ∧ (onActionsSnapshot [] st).tradeActions = [] := by
  refine ⟨rfl, rfl, rfl, rfl⟩

/-- C6: one run of the App effect unsubscribes all four of its listeners,
but a TradeVisualizer effect run in which the prices listener fired once
leaves the nested actions listener (id 1) registered after teardown: the
cleanup returned from inside the `onSnapshot` callback is discarded. -/
theorem c6_leaked_nested_listener :
    (appEffectRun { next := 0, active := [] }).active = []
    ∧ (tvEffectRun 1 { next := 0, active := [] }).active = [1]
    ∧ ([1] : List Nat) ≠ [] := by
  refine ⟨rfl, rfl, by decide⟩

/-- Folding store operations that are all listens leaves the store as is. -/
theorem foldl_applyStoreOp_no_write (ops : List StoreOp)
    (store : List (String × String))
    (h : ∀ op ∈ ops, op.isWrite = false) :
    ops.foldl applyStoreOp store = store := by
  induction ops generalizing store with
  | nil => rfl
  | cons op ops ih =>
    cases op with
    | listen t => exact ih store (fun o ho => h o (List.mem_cons_of_mem _ ho))
    | write t p =>
      exact absurd (h _ (List.mem_cons_self _ _)) (by simp [StoreOp.isWrite])

/-- C7: every store operation either dashboard effect issues is a
read-only listen, so applying all of them leaves the store contents
unchanged. -/
theorem c7_read_only (store : List (String × String)) (n : Nat) :
    (∀ op ∈ appStoreOps ++ tvStoreOps n, op.isWrite = false)
    ∧ (appStoreOps ++ tvStoreOps n).foldl applyStoreOp store = store := by
  have hnw : ∀ op ∈ appStoreOps ++ tvStoreOps n, op.isWrite = false := by
    intro op hop
    rcases List.mem_append.mp hop with h | h
    · simp only [appStoreOps, List.mem_cons, List.not_mem_nil, or_false] at h
      rcases h with rfl | rfl | rfl | rfl <;> rfl
    · simp only [tvStoreOps, List.mem_cons, List.mem_map] at h
      rcases h with rfl | ⟨_, _, rfl⟩
      · rfl
      · rfl
  exact ⟨hnw, foldl_applyStoreOp_no_write _ store hnw⟩

/-- A batch without the selected ticker contributes no chart point. -/
theorem chartPointOfBatch_none (t : String)
    (abid : String → Option TradeAction) (b : PriceBatch)
    (h : batchHasTicker t b = false) :
    chartPointOfBatch t abid b = none := by
  unfold batchHasTicker at h
  cases hf : b.symbols.find? (fun s => s.ticker == t) with
  | none => simp [chartPointOfBatch, hf]
  | some s =>
    rw [hf] at h
    simp at h

/-- C8: absent data yields loading or empty render states, never a
failure — a missing portfolio state document gives zeros, empty positions
give cash alone with zero P/L, an absent latest batch gives no tickers
and the chart's empty-state view, batches without the selected ticker
give an empty chart series and the no-history overlay, and an empty
actions list gives the skeleton while loading and the empty notice
after. -/
theorem c8_empty_states (st : PortfolioState)
    (positions : List PortfolioPosition) (actions : List TradeAction)
    (prices : List PriceBatch) (t : String)
    (hnone : ∀ b ∈ prices, batchHasTicker t b = false) :
    portfolioKpis none positions
      = { portfolioValue := 0, dailyPnL := 0, dailyPnLPct := 0 }
    ∧ (portfolioKpis (some st) []).portfolioValue = st.cash
    ∧ (portfolioKpis (some st) []).dailyPnL = 0
    ∧ availableTickers none = []
    ∧ tradeVisualizerView [] = .noStockData
    ∧ mergedData t prices actions = []
    ∧ (chartOverlays false (mergedData t prices actions)).showNoHistory = true
    ∧ (actionsTableView true []).showSkeleton = true
    ∧ (actionsTableView false []).showEmptyNotice = true := by
  have hmerged : mergedData t prices actions = [] := by
    rw [mergedData_eq_reverse_filterMap, List.reverse_eq_nil_iff,
      List.filterMap_eq_nil_iff]
    exact fun b hb => chartPointOfBatch_none t _ b (hnone b hb)
  refine ⟨rfl, ?_, rfl, rfl, rfl, hmerged, ?_, rfl, rfl⟩
  · simp only [portfolioKpis, List.isEmpty_nil, if_pos, jsOr]
    rcases eq_or_ne st.cash 0 with h | h <;> simp [h]
  · rw [hmerged]
    rfl

/-- C8 witness: the empty-state conjunct for the chart at a concrete
batch list without the selected ticker. -/
theorem c8_empty_states_witness :
    mergedData "ABUK" [exBatchNoTicker] [] = [] :=
  (c8_empty_states exState [] [] [exBatchNoTicker] "ABUK"
    (by decide)).2.2.2.2.2.1

end EGX
